import Mathlib

/-!
Shallow embedding of the DR16 receiver-parsing module (src/DR16.hpp).

The module decodes 18-byte frames from a DR16 remote-control receiver,
validates them (`DataCorrupted`), and publishes valid frames on a topic
from a dedicated acquisition thread (`Thread_Dr16`).  The definitions
below translate the C++ source: the packed bit-field struct `Data`, the
validator, the key/switch enumerations with their combination-code
helpers, and the acquisition loop as a small-step event semantics.
-/

namespace DR16

/-- `DR16_CH_VALUE_MIN` from src/DR16.hpp line 16. -/
def DR16_CH_VALUE_MIN : Nat := 364

/-- `DR16_CH_VALUE_MID` from src/DR16.hpp line 17. -/
def DR16_CH_VALUE_MID : Nat := 1024

/-- `DR16_CH_VALUE_MAX` from src/DR16.hpp line 18. -/
def DR16_CH_VALUE_MAX : Nat := 1684

/-- The packed frame struct `DR16::Data` (src/DR16.hpp lines 88-102).
Channels are 11-bit unsigned bit-fields, switches 2-bit unsigned
bit-fields, `x`/`y`/`z` signed 16-bit, `press_l`/`press_r` 8-bit,
`key`/`res` 16-bit.  Fields are modelled as `Nat`/`Int`; the bit widths
appear as range hypotheses in the theorems that need them. -/
structure Data where
  ch_r_x : Nat
  ch_r_y : Nat
  ch_l_x : Nat
  ch_l_y : Nat
  sw_r : Nat
  sw_l : Nat
  x : Int
  y : Int
  z : Int
  press_l : Nat
  press_r : Nat
  key : Nat
  res : Nat
deriving DecidableEq, Repr

/-- `DR16::DataCorrupted` (src/DR16.hpp lines 152-178): early-return
range checks on the four channels followed by zero checks on the two
switches, mirrored as nested conditionals. -/
def DataCorrupted (d : Data) : Bool :=
  if d.ch_r_x < DR16_CH_VALUE_MIN ∨ d.ch_r_x > DR16_CH_VALUE_MAX then true
  else if d.ch_r_y < DR16_CH_VALUE_MIN ∨ d.ch_r_y > DR16_CH_VALUE_MAX then true
  else if d.ch_l_x < DR16_CH_VALUE_MIN ∨ d.ch_l_x > DR16_CH_VALUE_MAX then true
  else if d.ch_l_y < DR16_CH_VALUE_MIN ∨ d.ch_l_y > DR16_CH_VALUE_MAX then true
  else if d.sw_l = 0 then true
  else if d.sw_r = 0 then true
  else false

/-- `DR16::DataCorrupted` in state-passing form: the member function
receives the object state `data_` and returns the verdict together with
the state after the call.  Each return statement of the C++ body returns
the state unchanged, since the body only reads `data_`. -/
def DataCorruptedS (data_ : Data) : Bool × Data :=
  if data_.ch_r_x < DR16_CH_VALUE_MIN ∨ data_.ch_r_x > DR16_CH_VALUE_MAX then
    (true, data_)
  else if data_.ch_r_y < DR16_CH_VALUE_MIN ∨ data_.ch_r_y > DR16_CH_VALUE_MAX then
    (true, data_)
  else if data_.ch_l_x < DR16_CH_VALUE_MIN ∨ data_.ch_l_x > DR16_CH_VALUE_MAX then
    (true, data_)
  else if data_.ch_l_y < DR16_CH_VALUE_MIN ∨ data_.ch_l_y > DR16_CH_VALUE_MAX then
    (true, data_)
  else if data_.sw_l = 0 then (true, data_)
  else if data_.sw_r = 0 then (true, data_)
  else (false, data_)

/-- `DR16::SwitchPos` (src/DR16.hpp lines 27-35), without the count
sentinel `DR16_SW_POS_NUM`. -/
inductive SwitchPos where
  | DR16_SW_L_POS_TOP
  | DR16_SW_L_POS_BOT
  | DR16_SW_L_POS_MID
  | DR16_SW_R_POS_TOP
  | DR16_SW_R_POS_BOT
  | DR16_SW_R_POS_MID
deriving DecidableEq, Fintype, Repr

/-- The enumerant value of each `SwitchPos`, as assigned in the C++ enum. -/
def SwitchPos.code : SwitchPos → Nat
  | .DR16_SW_L_POS_TOP => 0
  | .DR16_SW_L_POS_BOT => 1
  | .DR16_SW_L_POS_MID => 2
  | .DR16_SW_R_POS_TOP => 3
  | .DR16_SW_R_POS_BOT => 4
  | .DR16_SW_R_POS_MID => 5

/-- The value of the sentinel `SwitchPos::DR16_SW_POS_NUM` (= 6). -/
def DR16_SW_POS_NUM : Nat := 6

/-- `DR16::Key` (src/DR16.hpp lines 37-59), without the count sentinel
`KEY_NUM`.  The C++ enum starts numbering at
`SwitchPos::DR16_SW_POS_NUM` (= 6). -/
inductive Key where
  | KEY_W
  | KEY_S
  | KEY_A
  | KEY_D
  | KEY_SHIFT
  | KEY_CTRL
  | KEY_Q
  | KEY_E
  | KEY_R
  | KEY_F
  | KEY_G
  | KEY_Z
  | KEY_X
  | KEY_C
  | KEY_V
  | KEY_B
  | KEY_L_PRESS
  | KEY_R_PRESS
  | KEY_L_RELEASE
  | KEY_R_RELEASE
deriving DecidableEq, Fintype, Repr

/-- The enumerant value of each `Key`: `KEY_W = 6` and the rest follow
consecutively, as the C++ enum assigns them. -/
def Key.code : Key → Nat
  | .KEY_W => 6
  | .KEY_S => 7
  | .KEY_A => 8
  | .KEY_D => 9
  | .KEY_SHIFT => 10
  | .KEY_CTRL => 11
  | .KEY_Q => 12
  | .KEY_E => 13
  | .KEY_R => 14
  | .KEY_F => 15
  | .KEY_G => 16
  | .KEY_Z => 17
  | .KEY_X => 18
  | .KEY_C => 19
  | .KEY_V => 20
  | .KEY_B => 21
  | .KEY_L_PRESS => 22
  | .KEY_R_PRESS => 23
  | .KEY_L_RELEASE => 24
  | .KEY_R_RELEASE => 25

/-- The value of the sentinel `Key::KEY_NUM` (= 26): one past the last
key enumerant, i.e. the 6 switch-position slots plus the 20 keys. -/
def KEY_NUM : Nat := 26

/-- The number of base keys/events the `Key` enumeration declares
(20: W/S/A/D/Shift/Ctrl/Q/E/R/F/G/Z/X/C/V/B plus the four pointer-button
press/release events). -/
def baseKeyCount : Nat := Fintype.card Key

/-- `DR16::ShiftWith` (src/DR16.hpp lines 66-68). -/
def ShiftWith (key : Key) : Nat := key.code + 1 * KEY_NUM

/-- `DR16::CtrlWith` (src/DR16.hpp lines 75-77). -/
def CtrlWith (key : Key) : Nat := key.code + 2 * KEY_NUM

/-- `DR16::ShiftCtrlWith` (src/DR16.hpp lines 84-86). -/
def ShiftCtrlWith (key : Key) : Nat := key.code + 3 * KEY_NUM

/-! ## The acquisition loop `Thread_Dr16` (src/DR16.hpp lines 131-146)

The thread body is modelled as an event trace: each externally visible
call the loop makes on its collaborators (`read_port_->Reset()`,
`Thread::Sleep`, `cmd_tp_.Publish`) becomes one `Event`.  The frames the
blocking `uart_->Read` delivers are an input stream `Nat → Data`. -/

/-- One externally visible call of the acquisition loop. -/
inductive Event where
  | resetBuffer : Event
  | sleep : Nat → Event
  | publish : Data → Event
deriving DecidableEq, Repr

/-- The body of the `while (true)` loop of `Thread_Dr16`, as the events
it emits for the frame `d` the blocking read just delivered: if
`DataCorrupted` holds, reset the receive buffer and sleep 3 ticks;
otherwise publish the frame on `cmd_tp_`. -/
def loopIter (d : Data) : List Event :=
  if DataCorrupted d then [Event.resetBuffer, Event.sleep 3]
  else [Event.publish d]

/-- State of the acquisition loop between iterations: the index of the
next frame the blocking read will deliver, and the log of events emitted
so far. -/
structure LoopState where
  iter : Nat
  log : List Event
deriving DecidableEq, Repr

/-- Small-step semantics of the `while (true)` loop of `Thread_Dr16`
over the input stream `stream`: one step reads frame `stream s.iter`,
then takes the corrupted branch (buffer reset, sleep 3) or the valid
branch (publish). -/
inductive Step (stream : Nat → Data) : LoopState → LoopState → Prop where
  | invalid (s : LoopState) (h : DataCorrupted (stream s.iter) = true) :
      Step stream s ⟨s.iter + 1, s.log ++ [Event.resetBuffer, Event.sleep 3]⟩
  | valid (s : LoopState) (h : DataCorrupted (stream s.iter) = false) :
      Step stream s ⟨s.iter + 1, s.log ++ [Event.publish (stream s.iter)]⟩

/-- `n` successive steps of the loop. -/
inductive StepN (stream : Nat → Data) : Nat → LoopState → LoopState → Prop where
  | zero (s : LoopState) : StepN stream 0 s s
  | succ {n : Nat} {s t u : LoopState} (hst : Step stream s t)
      (htu : StepN stream n t u) : StepN stream (n + 1) s u

/-! ## The wire layout of `DR16::Data`

`Data` is declared `__attribute__((packed))` with bit-fields, so the
struct is laid out with no padding: bits are allocated in declaration
order, least significant bit first, and the multi-byte integer members
are little-endian.  `packData` builds the 144-bit image of the struct,
`toBytes`/`fromBytes` split it into / rebuild it from bytes, and
`unpackData` extracts the fields again, giving the encoder and the
decoder of the 18-byte wire frame. -/

/-- The unsigned 16-bit representation of a signed 16-bit value, as the
two's-complement bytes of an `int16_t` store it. -/
def toU16 (v : Int) : Nat := (v % 65536).toNat

/-- Read an unsigned 16-bit value back as a signed `int16_t`. -/
def ofU16 (u : Nat) : Int :=
  if u < 32768 then (u : Int) else (u : Int) - 65536

/-- The 144-bit image of a `Data` struct: fields packed in declaration
order, least significant bits first — four 11-bit channels, two 2-bit
switches, three 16-bit two's-complement pointer deltas, two 8-bit
buttons, the 16-bit key bitmask and the 16-bit reserved field. -/
def packData (d : Data) : Nat :=
  d.ch_r_x + 2 ^ 11 *
  (d.ch_r_y + 2 ^ 11 *
  (d.ch_l_x + 2 ^ 11 *
  (d.ch_l_y + 2 ^ 11 *
  (d.sw_r + 2 ^ 2 *
  (d.sw_l + 2 ^ 2 *
  (toU16 d.x + 2 ^ 16 *
  (toU16 d.y + 2 ^ 16 *
  (toU16 d.z + 2 ^ 16 *
  (d.press_l + 2 ^ 8 *
  (d.press_r + 2 ^ 8 *
  (d.key + 2 ^ 16 * d.res)))))))))))

/-- Extract every field of a `Data` struct from its 144-bit image, at
the bit offsets the packed layout assigns. -/
def unpackData (n : Nat) : Data where
  ch_r_x := n % 2 ^ 11
  ch_r_y := n / 2 ^ 11 % 2 ^ 11
  ch_l_x := n / 2 ^ 22 % 2 ^ 11
  ch_l_y := n / 2 ^ 33 % 2 ^ 11
  sw_r := n / 2 ^ 44 % 2 ^ 2
  sw_l := n / 2 ^ 46 % 2 ^ 2
  x := ofU16 (n / 2 ^ 48 % 2 ^ 16)
  y := ofU16 (n / 2 ^ 64 % 2 ^ 16)
  z := ofU16 (n / 2 ^ 80 % 2 ^ 16)
  press_l := n / 2 ^ 96 % 2 ^ 8
  press_r := n / 2 ^ 104 % 2 ^ 8
  key := n / 2 ^ 112 % 2 ^ 16
  res := n / 2 ^ 128 % 2 ^ 16

/-- The `count` little-endian bytes of `n`. -/
def toBytes : Nat → Nat → List Nat
  | 0, _ => []
  | count + 1, n => n % 256 :: toBytes count (n / 256)

/-- Rebuild a number from little-endian bytes; each byte is taken
mod 256, as a `uint8_t` buffer stores it. -/
def fromBytes : List Nat → Nat
  | [] => 0
  | b :: bs => b % 256 + 256 * fromBytes bs

/-- Encode a `Data` struct as its 18-byte wire frame. -/
def encodeFrame (d : Data) : List Nat := toBytes 18 (packData d)

/-- Decode an 18-byte wire frame into a `Data` struct.  Total: any byte
list yields a frame, and no validation is performed. -/
def decodeFrame (bytes : List Nat) : Data := unpackData (fromBytes bytes)

/-- Predicate: every field of `d` fits the bit width its struct member
declares (11-bit channels, 2-bit switches, signed 16-bit pointer deltas,
8-bit buttons, 16-bit key and reserved fields). -/
def Representable (d : Data) : Prop :=
  d.ch_r_x < 2 ^ 11 ∧ d.ch_r_y < 2 ^ 11 ∧ d.ch_l_x < 2 ^ 11 ∧
  d.ch_l_y < 2 ^ 11 ∧ d.sw_r < 2 ^ 2 ∧ d.sw_l < 2 ^ 2 ∧
  -2 ^ 15 ≤ d.x ∧ d.x < 2 ^ 15 ∧ -2 ^ 15 ≤ d.y ∧ d.y < 2 ^ 15 ∧
  -2 ^ 15 ≤ d.z ∧ d.z < 2 ^ 15 ∧ d.press_l < 2 ^ 8 ∧ d.press_r < 2 ^ 8 ∧
  d.key < 2 ^ 16 ∧ d.res < 2 ^ 16

instance (d : Data) : Decidable (Representable d) := by
  unfold Representable; infer_instance

/-- How many publish calls a trace contains. -/
def publishCount (events : List Event) : Nat :=
  events.countP fun e => match e with
    | Event.publish _ => true
    | _ => false

/-- How many receive-buffer resets a trace contains. -/
def resetCount (events : List Event) : Nat :=
  events.countP fun e => match e with
    | Event.resetBuffer => true
    | _ => false

/-- The durations of the sleep calls of a trace, in order. -/
def sleepEvents (events : List Event) : List Nat :=
  events.filterMap fun e => match e with
    | Event.sleep n => some n
    | _ => none

/-- The spec's example of a corrupted frame: all fields neutral except
the right-X channel at 300, below `DR16_CH_VALUE_MIN`. -/
def badFrame : Data := ⟨300, 1024, 1024, 1024, 1, 1, 0, 0, 0, 0, 0, 0, 0⟩

/-- The spec's example of a fully valid frame: all four channels at the
neutral 1024, both switches 1. -/
def goodFrame : Data := ⟨1024, 1024, 1024, 1024, 1, 1, 0, 0, 0, 0, 0, 0, 0⟩

/-! ## Helper lemmas -/

theorem toU16_lt (v : Int) : toU16 v < 2 ^ 16 := by
  unfold toU16; omega

theorem ofU16_toU16 (v : Int) (h1 : -2 ^ 15 ≤ v) (h2 : v < 2 ^ 15) :
    ofU16 (toU16 v) = v := by
  unfold ofU16 toU16; split <;> omega

theorem toBytes_length (count : Nat) : ∀ n : Nat, (toBytes count n).length = count := by
  induction count with
  | zero => intro n; rfl
  | succ k ih => intro n; simp [toBytes, ih]

theorem fromBytes_toBytes (count : Nat) :
    ∀ n : Nat, fromBytes (toBytes count n) = n % 256 ^ count := by
  induction count with
  | zero => intro n; simp [toBytes, fromBytes]; omega
  | succ k ih =>
    intro n
    rw [toBytes, fromBytes, ih (n / 256), pow_succ']
    rw [Nat.mod_mul]
    omega

/-- Every field of a representable frame sits at its declared bit offset
in the 144-bit image, and the image fits in 144 bits (18 bytes). -/
theorem packData_fields (d : Data) (h : Representable d) :
    packData d < 2 ^ 144 ∧
    packData d % 2 ^ 11 = d.ch_r_x ∧
    packData d / 2 ^ 11 % 2 ^ 11 = d.ch_r_y ∧
    packData d / 2 ^ 22 % 2 ^ 11 = d.ch_l_x ∧
    packData d / 2 ^ 33 % 2 ^ 11 = d.ch_l_y ∧
    packData d / 2 ^ 44 % 2 ^ 2 = d.sw_r ∧
    packData d / 2 ^ 46 % 2 ^ 2 = d.sw_l ∧
    packData d / 2 ^ 48 % 2 ^ 16 = toU16 d.x ∧
    packData d / 2 ^ 64 % 2 ^ 16 = toU16 d.y ∧
    packData d / 2 ^ 80 % 2 ^ 16 = toU16 d.z ∧
    packData d / 2 ^ 96 % 2 ^ 8 = d.press_l ∧
    packData d / 2 ^ 104 % 2 ^ 8 = d.press_r ∧
    packData d / 2 ^ 112 % 2 ^ 16 = d.key ∧
    packData d / 2 ^ 128 % 2 ^ 16 = d.res := by
  obtain ⟨h1, h2, h3, h4, h5, h6, hx1, hx2, hy1, hy2, hz1, hz2, h7, h8, h9, h10⟩ := h
  have tx : toU16 d.x < 2 ^ 16 := toU16_lt d.x
  have ty : toU16 d.y < 2 ^ 16 := toU16_lt d.y
  have tz : toU16 d.z < 2 ^ 16 := toU16_lt d.z
  unfold packData
  refine ⟨?_, ?_, ?_, ?_, ?_, ?_, ?_, ?_, ?_, ?_, ?_, ?_, ?_, ?_⟩ <;> omega

theorem unpack_pack (d : Data) (h : Representable d) :
    unpackData (packData d) = d := by
  obtain ⟨-, e1, e2, e3, e4, e5, e6, e7, e8, e9, e10, e11, e12, e13⟩ :=
    packData_fields d h
  obtain ⟨-, -, -, -, -, -, hx1, hx2, hy1, hy2, hz1, hz2, -, -, -, -⟩ := h
  unfold unpackData
  rw [e1, e2, e3, e4, e5, e6, e7, e8, e9, e10, e11, e12, e13,
    ofU16_toU16 d.x hx1 hx2, ofU16_toU16 d.y hy1 hy2, ofU16_toU16 d.z hz1 hz2]

/-- The loop can always take a step, whatever frame arrives next. -/
theorem step_total (stream : Nat → Data) (s : LoopState) : ∃ t, Step stream s t := by
  cases hb : DataCorrupted (stream s.iter)
  · exact ⟨_, Step.valid s hb⟩
  · exact ⟨_, Step.invalid s hb⟩

/-- The loop can always take any number of steps. -/
theorem stepN_total (stream : Nat → Data) (n : Nat) :
    ∀ s : LoopState, ∃ t, StepN stream n s t := by
  induction n with
  | zero => exact fun s => ⟨s, StepN.zero s⟩
  | succ k ih =>
    intro s
    obtain ⟨t, hst⟩ := step_total stream s
    obtain ⟨u, htu⟩ := ih t
    exact ⟨u, StepN.succ hst htu⟩

/-! ## Claims -/

/-- C1: `DataCorrupted` reports the frame invalid iff some channel is
strictly below 364 or strictly above 1684, or a switch equals 0; a frame
passing all six checks is reported valid (so the boundary values 364 and
1684 are valid and 363 and 1685 invalid, per channel independently). -/
theorem dataCorrupted_iff_out_of_range (d : Data) :
    (DataCorrupted d = true ↔
      d.ch_r_x < 364 ∨ d.ch_r_x > 1684 ∨
      d.ch_r_y < 364 ∨ d.ch_r_y > 1684 ∨
      d.ch_l_x < 364 ∨ d.ch_l_x > 1684 ∨
      d.ch_l_y < 364 ∨ d.ch_l_y > 1684 ∨
      d.sw_l = 0 ∨ d.sw_r = 0) ∧
    (DataCorrupted d = false ↔
      364 ≤ d.ch_r_x ∧ d.ch_r_x ≤ 1684 ∧
      364 ≤ d.ch_r_y ∧ d.ch_r_y ≤ 1684 ∧
      364 ≤ d.ch_l_x ∧ d.ch_l_x ≤ 1684 ∧
      364 ≤ d.ch_l_y ∧ d.ch_l_y ≤ 1684 ∧
      d.sw_l ≠ 0 ∧ d.sw_r ≠ 0) := by
  unfold DataCorrupted DR16_CH_VALUE_MIN DR16_CH_VALUE_MAX
  constructor <;> (repeat' split) <;> simp <;> omega

/-- C2: one loop iteration publishes the just-decoded frame exactly once
when it passes validation, publishes nothing when it fails, and never
hands the publisher an invalid frame. -/
theorem loop_publish_iff_valid (d p : Data) :
    publishCount (loopIter d) = (if DataCorrupted d then 0 else 1) ∧
    (Event.publish p ∈ loopIter d ↔ DataCorrupted d = false ∧ p = d) ∧
    (Event.publish p ∈ loopIter d → DataCorrupted p = false) := by
  cases hb : DataCorrupted d <;>
    simp [loopIter, publishCount, hb, List.countP_cons]
  rintro rfl
  exact hb

/-- C3: when the decoded frame fails validation, the iteration takes the
recovery path exactly once — one receive-buffer reset, one pause of
exactly 3 ticks, no publish — and the loop steps on to await the next
frame. -/
theorem loop_recovery_on_invalid (stream : Nat → Data) (s : LoopState)
    (h : DataCorrupted (stream s.iter) = true) :
    loopIter (stream s.iter) = [Event.resetBuffer, Event.sleep 3] ∧
    resetCount (loopIter (stream s.iter)) = 1 ∧
    sleepEvents (loopIter (stream s.iter)) = [3] ∧
    publishCount (loopIter (stream s.iter)) = 0 ∧
    Step stream s ⟨s.iter + 1, s.log ++ [Event.resetBuffer, Event.sleep 3]⟩ := by
  refine ⟨?_, ?_, ?_, ?_, Step.invalid s h⟩ <;>
    simp [loopIter, resetCount, sleepEvents, publishCount, h]

/-- Witness for C3 at the spec's corrupted frame (right-X channel 300),
delivered by a constant stream to the loop's initial state. -/
theorem loop_recovery_on_invalid_witness :
    loopIter badFrame = [Event.resetBuffer, Event.sleep 3] ∧
    resetCount (loopIter badFrame) = 1 ∧
    sleepEvents (loopIter badFrame) = [3] ∧
    publishCount (loopIter badFrame) = 0 ∧
    Step (fun _ => badFrame) ⟨0, []⟩ ⟨1, [Event.resetBuffer, Event.sleep 3]⟩ :=
  loop_recovery_on_invalid (fun _ => badFrame) ⟨0, []⟩ (by decide)

/-- C4: the wire frame is exactly 18 bytes (144 bits, no padding), the
fields packed in declaration order at contiguous bit offsets: channels
at bits 0/11/22/33 (11 bits each), switches at 44/46 (2 bits each), the
two's-complement pointer deltas at 48/64/80 (16 bits each), the buttons
at 96/104 (8 bits each), the key bitmask at 112 and the reserved field
at 128 (16 bits each). -/
theorem wire_frame_layout (d : Data) (h : Representable d) :
    (encodeFrame d).length = 18 ∧
    (packData d < 2 ^ 144 ∧
    packData d % 2 ^ 11 = d.ch_r_x ∧
    packData d / 2 ^ 11 % 2 ^ 11 = d.ch_r_y ∧
    packData d / 2 ^ 22 % 2 ^ 11 = d.ch_l_x ∧
    packData d / 2 ^ 33 % 2 ^ 11 = d.ch_l_y ∧
    packData d / 2 ^ 44 % 2 ^ 2 = d.sw_r ∧
    packData d / 2 ^ 46 % 2 ^ 2 = d.sw_l ∧
    packData d / 2 ^ 48 % 2 ^ 16 = toU16 d.x ∧
    packData d / 2 ^ 64 % 2 ^ 16 = toU16 d.y ∧
    packData d / 2 ^ 80 % 2 ^ 16 = toU16 d.z ∧
    packData d / 2 ^ 96 % 2 ^ 8 = d.press_l ∧
    packData d / 2 ^ 104 % 2 ^ 8 = d.press_r ∧
    packData d / 2 ^ 112 % 2 ^ 16 = d.key ∧
    packData d / 2 ^ 128 % 2 ^ 16 = d.res) :=
  ⟨toBytes_length 18 (packData d), packData_fields d h⟩

/-- Witness for C4 at the spec's fully valid frame. -/
theorem wire_frame_layout_witness :
    Representable goodFrame ∧
    ((encodeFrame goodFrame).length = 18 ∧
    (packData goodFrame < 2 ^ 144 ∧
    packData goodFrame % 2 ^ 11 = goodFrame.ch_r_x ∧
    packData goodFrame / 2 ^ 11 % 2 ^ 11 = goodFrame.ch_r_y ∧
    packData goodFrame / 2 ^ 22 % 2 ^ 11 = goodFrame.ch_l_x ∧
    packData goodFrame / 2 ^ 33 % 2 ^ 11 = goodFrame.ch_l_y ∧
    packData goodFrame / 2 ^ 44 % 2 ^ 2 = goodFrame.sw_r ∧
    packData goodFrame / 2 ^ 46 % 2 ^ 2 = goodFrame.sw_l ∧
    packData goodFrame / 2 ^ 48 % 2 ^ 16 = toU16 goodFrame.x ∧
    packData goodFrame / 2 ^ 64 % 2 ^ 16 = toU16 goodFrame.y ∧
    packData goodFrame / 2 ^ 80 % 2 ^ 16 = toU16 goodFrame.z ∧
    packData goodFrame / 2 ^ 96 % 2 ^ 8 = goodFrame.press_l ∧
    packData goodFrame / 2 ^ 104 % 2 ^ 8 = goodFrame.press_r ∧
    packData goodFrame / 2 ^ 112 % 2 ^ 16 = goodFrame.key ∧
    packData goodFrame / 2 ^ 128 % 2 ^ 16 = goodFrame.res)) :=
  ⟨by decide, wire_frame_layout goodFrame (by decide)⟩

/-- C5: encoding a representable frame into its 18-byte wire image and
decoding it back restores every field (round-trip law); `decodeFrame`
is a total function and validates nothing. -/
theorem decodeFrame_encodeFrame (d : Data) (h : Representable d) :
    decodeFrame (encodeFrame d) = d := by
  have hb : packData d < 2 ^ 144 := (packData_fields d h).1
  have h256 : (256 : Nat) ^ 18 = 2 ^ 144 := by norm_num
  unfold decodeFrame encodeFrame
  rw [fromBytes_toBytes 18 (packData d), h256, Nat.mod_eq_of_lt hb]
  exact unpack_pack d h

/-- Witness for C5 at the spec's fully valid frame. -/
theorem decodeFrame_encodeFrame_witness :
    Representable goodFrame ∧ decodeFrame (encodeFrame goodFrame) = goodFrame :=
  ⟨by decide, decodeFrame_encodeFrame goodFrame (by decide)⟩

/-- C6 counterexample: the combination offsets are not multiples of the
count of base keys/events.  The `Key` enumeration declares 20 base
keys/events, yet `ShiftWith KEY_W` is 32 = 6 + 26, not
`code KEY_W + 20 = 26`: the offset the code adds is the sentinel
`KEY_NUM = 26`, which also counts the 6 switch-position slots below
`KEY_W`. -/
theorem shiftWith_offset_not_base_key_count :
    baseKeyCount = 20 ∧ Key.code Key.KEY_W = 6 ∧ ShiftWith Key.KEY_W = 32 ∧
    ShiftWith Key.KEY_W ≠ Key.code Key.KEY_W + baseKeyCount ∧
    CtrlWith Key.KEY_W ≠ Key.code Key.KEY_W + 2 * baseKeyCount ∧
    ShiftCtrlWith Key.KEY_W ≠ Key.code Key.KEY_W + 3 * baseKeyCount := by
  refine ⟨by decide, by decide, by decide, ?_, ?_, ?_⟩ <;> decide

/-- C6 (amended): the combination codes are `code k + KEY_NUM`,
`code k + 2 * KEY_NUM` and `code k + 3 * KEY_NUM`, where
`KEY_NUM = 26` is the enum sentinel — the 20 base keys/events plus the
6 switch-position slots the numbering starts after — and in particular
the three combination codes of any key are pairwise distinct and
distinct from the base code. -/
theorem combination_code_offsets (k : Key) :
    ShiftWith k = k.code + 1 * KEY_NUM ∧
    CtrlWith k = k.code + 2 * KEY_NUM ∧
    ShiftCtrlWith k = k.code + 3 * KEY_NUM ∧
    KEY_NUM = DR16_SW_POS_NUM + baseKeyCount ∧
    k.code ≠ ShiftWith k ∧ k.code ≠ CtrlWith k ∧ k.code ≠ ShiftCtrlWith k ∧
    ShiftWith k ≠ CtrlWith k ∧ ShiftWith k ≠ ShiftCtrlWith k ∧
    CtrlWith k ≠ ShiftCtrlWith k := by
  cases k <;> decide

/-- C7: the validator's verdict reads only the four channels and the two
switches — two frames agreeing on those six fields get the same verdict
whatever their pointer-motion, button, key-bitmask and reserved fields. -/
theorem dataCorrupted_ignores_other_fields
    (c1 c2 c3 c4 s1 s2 : Nat) (x y z : Int) (pl pr k r : Nat)
    (x' y' z' : Int) (pl' pr' k' r' : Nat) :
    DataCorrupted ⟨c1, c2, c3, c4, s1, s2, x, y, z, pl, pr, k, r⟩ =
      DataCorrupted ⟨c1, c2, c3, c4, s1, s2, x', y', z', pl', pr', k', r'⟩ := rfl

/-- C8: the acquisition loop has no terminal state: every state can take
a step, and from every state every number of further iterations is
reachable, whatever frames (corrupted or not) the stream delivers. -/
theorem loop_no_terminal_state (stream : Nat → Data) (s : LoopState) :
    (∃ t, Step stream s t) ∧ ∀ n : Nat, ∃ t, StepN stream n s t :=
  ⟨step_total stream s, fun n => stepN_total stream n s⟩

/-- C9: running the validator leaves the frame state unchanged — the
state-passing form of `DataCorrupted` returns the object state exactly
as received, beside the verdict it computes. -/
theorem dataCorruptedS_state_unchanged (d : Data) :
    (DataCorruptedS d).2 = d ∧ (DataCorruptedS d).1 = DataCorrupted d := by
  unfold DataCorruptedS DataCorrupted
  repeat' split
  all_goals exact ⟨rfl, rfl⟩

/-- C10: base key codes start at the switch-position count 6 (`KEY_W`)
and stay strictly below `KEY_NUM = 26`, so the four code families —
base, `ShiftWith`, `CtrlWith`, `ShiftCtrlWith` — occupy pairwise
disjoint numeric ranges: codes from different families never collide,
for any two keys. -/
theorem code_families_disjoint (k1 k2 : Key) :
    (DR16_SW_POS_NUM ≤ k1.code ∧ k1.code < KEY_NUM ∧
      Key.code Key.KEY_W = DR16_SW_POS_NUM) ∧
    k1.code ≠ ShiftWith k2 ∧ k1.code ≠ CtrlWith k2 ∧
    k1.code ≠ ShiftCtrlWith k2 ∧ ShiftWith k1 ≠ CtrlWith k2 ∧
    ShiftWith k1 ≠ ShiftCtrlWith k2 ∧ CtrlWith k1 ≠ ShiftCtrlWith k2 := by
  cases k1 <;> cases k2 <;> decide

end DR16
